import Mathlib

/-!
Verification of the scoped-resource filtering model of
`src/zenml/models/v2/base/scoped.py`: the filter class hierarchy
(`UserScopedFilter`, `WorkspaceScopedFilter`, `ShareableFilter`,
`ModelScopedFilter`, `ModelVersionScopedFilter`), their `set_scope_*`
operations and their `apply_filter` query composition.
-/

/-- `uuid.UUID` values, modelled by their 128-bit integer value. -/
abbrev UUID := Nat

/-- A database row of a scoped resource table, with the columns the filters in
`scoped.py` access via `getattr(table, ...)`: `user_id`, `workspace_id`
(nullable, the code tests `.is_(None)`), `is_shared`, `model_id` and
`model_version_id` (nullable: the private scope attributes default to `None`). -/
structure Row where
  user_id : UUID
  workspace_id : Option UUID
  is_shared : Bool
  model_id : Option UUID
  model_version_id : Option UUID

/-- A SQL boolean expression over one row. -/
def Clause := Row → Bool

/-- A SQLModel `Select` statement, abstracted to its list of WHERE clauses
(SQLAlchemy ANDs successive `.where` calls). -/
structure Query where
  whereClauses : List Clause

/-- `query.where(clause)`: appends one more AND-ed WHERE clause. -/
def Query.where_ (q : Query) (c : Clause) : Query :=
  ⟨q.whereClauses ++ [c]⟩

/-- A row satisfies the query iff it satisfies every WHERE clause (SQL AND). -/
def Query.eval (q : Query) (r : Row) : Bool :=
  q.whereClauses.all (fun c => c r)

/-- SQLAlchemy `or_(c1, ..., cn)`: disjunction of clauses. -/
def or_ (cs : List Clause) : Clause :=
  fun r => cs.any (fun c => c r)

/-- SQLAlchemy column comparison `col == value` where `value` is a Python
`Optional[UUID]`: comparing with `None` renders as `col IS NULL`; comparing
with a concrete id is an equality that is false on a NULL column. Used by
`ModelVersionScopedFilter.apply_filter`, which compares
`model_version_id == self._model_version_id` unconditionally. -/
def sqlEq (col : Option UUID) (v : Option UUID) : Bool :=
  match v with
  | none => col.isNone
  | some u => decide (col = some u)

/-- Modelled from the spec: `BaseFilter.apply_filter`
(`zenml/models/v2/base/filter.py`, not part of the excerpt) ANDs each ordinary
column-filter constraint of the filter onto the query via `query.where` and
returns the query unchanged when no constraint is set. The scoped filters call
it as `super().apply_filter(query=query, table=table)`; here the generic
(non-scope) constraints of a filter are carried as a list of clauses. -/
def applySuperBase (baseClauses : List Clause) (q : Query) : Query :=
  baseClauses.foldl Query.where_ q

/-- `UserScopedFilter`: generic base-filter constraints plus the optional
`scope_user` field (`Optional[UUID]`, default `None`). A `UUID` instance is
always truthy in Python, so `if self.scope_user:` tests exactly `isSome`. -/
structure UserScopedFilter where
  baseClauses : List Clause
  scope_user : Option UUID

/-- `UserScopedFilter.set_scope_user`: stores the user id. -/
def UserScopedFilter.set_scope_user (self : UserScopedFilter) (user_id : UUID) :
    UserScopedFilter :=
  { self with scope_user := some user_id }

/-- `UserScopedFilter.apply_filter`: after the base filter, if `scope_user` is
set, AND in `or_(user_id == scope_user)`. -/
def UserScopedFilter.apply_filter (self : UserScopedFilter) (query : Query) :
    Query :=
  let query := applySuperBase self.baseClauses query
  match self.scope_user with
  | some u => query.where_ (or_ [fun r => decide (r.user_id = u)])
  | none => query

/-- `WorkspaceScopedFilter`: generic constraints plus optional
`scope_workspace`. -/
structure WorkspaceScopedFilter where
  baseClauses : List Clause
  scope_workspace : Option UUID

/-- `WorkspaceScopedFilter.set_scope_workspace`: stores the workspace id. -/
def WorkspaceScopedFilter.set_scope_workspace (self : WorkspaceScopedFilter)
    (workspace_id : UUID) : WorkspaceScopedFilter :=
  { self with scope_workspace := some workspace_id }

/-- `WorkspaceScopedFilter.apply_filter`: after the base filter, if
`scope_workspace` is set, AND in
`or_(workspace_id == scope_workspace, workspace_id.is_(None))`. -/
def WorkspaceScopedFilter.apply_filter (self : WorkspaceScopedFilter)
    (query : Query) : Query :=
  let query := applySuperBase self.baseClauses query
  match self.scope_workspace with
  | some w =>
      query.where_ (or_ [fun r => decide (r.workspace_id = some w),
                         fun r => r.workspace_id.isNone])
  | none => query

/-- `ShareableFilter(WorkspaceScopedFilter)`: adds an optional `scope_user`. -/
structure ShareableFilter where
  baseClauses : List Clause
  scope_workspace : Option UUID
  scope_user : Option UUID

/-- The `WorkspaceScopedFilter` part of a `ShareableFilter` (its superclass
state, used by the `super().apply_filter` call). -/
def ShareableFilter.toWorkspaceScopedFilter (self : ShareableFilter) :
    WorkspaceScopedFilter :=
  ⟨self.baseClauses, self.scope_workspace⟩

/-- `ShareableFilter.set_scope_user`: stores the user id. -/
def ShareableFilter.set_scope_user (self : ShareableFilter) (user_id : UUID) :
    ShareableFilter :=
  { self with scope_user := some user_id }

/-- `ShareableFilter.apply_filter`: after the superclass (workspace) filter, if
`scope_user` is set, AND in
`or_(user_id == scope_user, is_shared.is_(True))`. -/
def ShareableFilter.apply_filter (self : ShareableFilter) (query : Query) :
    Query :=
  let query := self.toWorkspaceScopedFilter.apply_filter query
  match self.scope_user with
  | some u =>
      query.where_ (or_ [fun r => decide (r.user_id = u),
                         fun r => r.is_shared])
  | none => query

/-- `ModelScopedFilter(WorkspaceScopedFilter)`: private attribute
`_model_id: UUID = PrivateAttr(None)` — typed `UUID` but defaulting to `None`,
hence `Option UUID` here; `if self._model_id:` tests `isSome` (a `UUID`
instance is always truthy). -/
structure ModelScopedFilter where
  baseClauses : List Clause
  scope_workspace : Option UUID
  _model_id : Option UUID

/-- The `WorkspaceScopedFilter` part of a `ModelScopedFilter`. -/
def ModelScopedFilter.toWorkspaceScopedFilter (self : ModelScopedFilter) :
    WorkspaceScopedFilter :=
  ⟨self.baseClauses, self.scope_workspace⟩

/-- `ModelScopedFilter.apply_filter`: after the superclass filter, if
`_model_id` is set, AND in `model_id == self._model_id`. -/
def ModelScopedFilter.apply_filter (self : ModelScopedFilter) (query : Query) :
    Query :=
  let query := self.toWorkspaceScopedFilter.apply_filter query
  match self._model_id with
  | some m => query.where_ (fun r => decide (r.model_id = some m))
  | none => query

/-- `ModelVersionScopedFilter(ModelScopedFilter)`: adds
`_model_version_id: UUID = PrivateAttr(None)`. -/
structure ModelVersionScopedFilter where
  baseClauses : List Clause
  scope_workspace : Option UUID
  _model_id : Option UUID
  _model_version_id : Option UUID

/-- The `ModelScopedFilter` part of a `ModelVersionScopedFilter`. -/
def ModelVersionScopedFilter.toModelScopedFilter
    (self : ModelVersionScopedFilter) : ModelScopedFilter :=
  ⟨self.baseClauses, self.scope_workspace, self._model_id⟩

/-- `ModelVersionScopedFilter.apply_filter`: after the superclass filter,
unconditionally ANDs in `model_version_id == self._model_version_id` — there
is no `if` guard in the source, so the clause is added even when no model
version scope was ever set (comparing against `None`, i.e. `IS NULL`). -/
def ModelVersionScopedFilter.apply_filter (self : ModelVersionScopedFilter)
    (query : Query) : Query :=
  let query := self.toModelScopedFilter.apply_filter query
  query.where_ (fun r => sqlEq r.model_version_id self._model_version_id)

/-- A `Union[str, UUID]` scope reference, as accepted by `set_scope_model` and
`set_scope_model_version`. -/
inductive Ref
  | id (u : UUID)
  | name (s : String)

/-- Hex-digit test used by `uuid.UUID` string parsing. -/
def pyIsHex (c : Char) : Bool :=
  c.isDigit || ( 'a' ≤ c && c ≤ 'f') || ( 'A' ≤ c && c ≤ 'F')

/-- Numeric value of a hex digit. -/
def hexVal (c : Char) : Nat :=
  if c.isDigit then c.toNat - 48
  else if 'a' ≤ c && c ≤ 'f' then c.toNat - 87
  else c.toNat - 55

/-- Removes every occurrence of `pat` from a character list (Python
`str.replace(pat, '')`), with structural fuel bounded by the list length
(each step consumes at least one character, so the fuel suffices). -/
def removeOccAux (pat : List Char) : Nat → List Char → List Char
  | 0, l => l
  | _ + 1, [] => []
  | fuel + 1, c :: cs =>
    if pat ≠ [] ∧ (c :: cs).take pat.length = pat then
      removeOccAux pat fuel ((c :: cs).drop pat.length)
    else
      c :: removeOccAux pat fuel cs

/-- Python `str.replace(pat, '')` on character lists. -/
def removeOcc (pat l : List Char) : List Char :=
  removeOccAux pat l.length l

/-- Python `str.strip(chars)`: removes leading and trailing characters drawn
from the given set. -/
def pyStrip (chars : List Char) (l : List Char) : List Char :=
  ((l.dropWhile (fun c => c ∈ chars)).reverse.dropWhile
      (fun c => c ∈ chars)).reverse

/-- Models `UUID(str(reference))` parsing from `uuid.UUID.__init__`: the hex
string has `urn:` and `uuid:` occurrences removed, is stripped of surrounding
braces, has dashes removed, and must then consist of exactly 32 hex digits,
whose value is the UUID's integer (Python `int(hex, 16)` underscore/sign
corner cases omitted; no claim depends on them). Returns `none` exactly when
the Python constructor raises `ValueError`. -/
def pyUUIDOfString (s : String) : Option UUID :=
  let cs := removeOcc ("uuid:".toList) (removeOcc ("urn:".toList) s.toList)
  let cs := pyStrip [ '\x7b', '\x7d'] cs
  let cs := cs.filter (fun c => c ≠ '-')
  if cs.length = 32 ∧ cs.all pyIsHex then
    some (cs.foldl (fun a c => a * 16 + hexVal c) 0)
  else none

/-- `try: UUID(str(reference))` on a `Union[str, UUID]`: a `UUID` value
round-trips through `str` unchanged; a string parses per `pyUUIDOfString`. -/
def Ref.tryUUID : Ref → Option UUID
  | .id u => some u
  | .name s => pyUUIDOfString s

/-- Outcomes of the external directory lookup (`zenml.client.Client`):
no match, or several resources sharing the name. -/
inductive LookupError
  | NotFoundError
  | AmbiguousReferenceError
deriving DecidableEq

/-- Errors a `set_scope_*` call can surface: a propagated lookup failure, or
the `PreconditionError` the spec postulates for a missing model scope. -/
inductive ScopeError
  | lookup (e : LookupError)
  | PreconditionError
deriving DecidableEq

/-- The external directory-service collaborator (`Client().get_model` and
`Client().get_model_version`); `get_model_version` receives the filter's
`_model_id` (possibly `None`) as the `model_name_or_id` argument, exactly as
the source passes it. -/
structure Directory where
  get_model : String → Except LookupError UUID
  get_model_version : Option UUID → String → Except LookupError UUID

/-- Result of a `set_scope_*` call, in explicit state-passing form: the filter
state after the call (unchanged if an exception propagated), the normal or
exceptional outcome, and the number of directory lookups performed. -/
structure SetOutcome (F : Type) where
  state : F
  result : Except ScopeError Unit
  lookups : Nat

/-- `ModelScopedFilter.set_scope_model`: `try: model_id = UUID(str(x))`,
`except ValueError:` resolve via `Client().get_model(x).id`; only on success
of the whole body is `self._model_id` assigned. -/
def ModelScopedFilter.set_scope_model (dir : Directory)
    (self : ModelScopedFilter) (model_name_or_id : Ref) :
    SetOutcome ModelScopedFilter :=
  match model_name_or_id with
  | .id u => ⟨{ self with _model_id := some u }, .ok (), 0⟩
  | .name s =>
    match pyUUIDOfString s with
    | some u => ⟨{ self with _model_id := some u }, .ok (), 0⟩
    | none =>
      match dir.get_model s with
      | .ok m => ⟨{ self with _model_id := some m }, .ok (), 1⟩
      | .error e => ⟨self, .error (.lookup e), 1⟩

/-- `ModelVersionScopedFilter.set_scope_model_version`:
`try: model_version_id = UUID(str(x))`, `except ValueError:` resolve via
`Client().get_model_version(model_name_or_id=self._model_id, ...)`; only on
success is `self._model_version_id` assigned. There is no check that a model
scope was set first: `self._model_id` (possibly `None`) is merely forwarded
to the lookup, and the `UUID` branch never consults it at all. -/
def ModelVersionScopedFilter.set_scope_model_version (dir : Directory)
    (self : ModelVersionScopedFilter) (model_version_name_or_id : Ref) :
    SetOutcome ModelVersionScopedFilter :=
  match model_version_name_or_id with
  | .id u => ⟨{ self with _model_version_id := some u }, .ok (), 0⟩
  | .name s =>
    match pyUUIDOfString s with
    | some u => ⟨{ self with _model_version_id := some u }, .ok (), 0⟩
    | none =>
      match dir.get_model_version self._model_id s with
      | .ok m => ⟨{ self with _model_version_id := some m }, .ok (), 1⟩
      | .error e => ⟨self, .error (.lookup e), 1⟩

/-- Default-constructed `ModelScopedFilter` (all scopes unset, no generic
constraints). -/
def msf0 : ModelScopedFilter := ⟨[], none, none⟩

/-- Default-constructed `ModelVersionScopedFilter`. -/
def mvsf0 : ModelVersionScopedFilter := ⟨[], none, none, none⟩

/-- A directory in which every lookup fails with `NotFoundError`. -/
def dirNotFound : Directory :=
  ⟨fun _ => .error .NotFoundError, fun _ _ => .error .NotFoundError⟩

theorem Query.eval_where (q : Query) (c : Clause) (r : Row) :
    (q.where_ c).eval r = (q.eval r && c r) := by
  simp [Query.where_, Query.eval]

theorem applySuperBase_whereClauses (cs : List Clause) (q : Query) :
    (applySuperBase cs q).whereClauses = q.whereClauses ++ cs := by
  induction cs generalizing q with
  | nil => simp [applySuperBase]
  | cons c cs ih =>
      show (applySuperBase cs (q.where_ c)).whereClauses = _
      rw [ih]
      simp [Query.where_]

theorem eval_mono_of_whereClauses {q' q : Query} {rest : List Clause} {r : Row}
    (hc : q'.whereClauses = q.whereClauses ++ rest)
    (h : q'.eval r = true) : q.eval r = true := by
  unfold Query.eval at h ⊢
  rw [hc, List.all_append, Bool.and_eq_true] at h
  exact h.1

theorem usf_apply_whereClauses (f : UserScopedFilter) (q : Query) :
    ∃ rest, (f.apply_filter q).whereClauses = q.whereClauses ++ rest := by
  unfold UserScopedFilter.apply_filter
  cases f.scope_user with
  | none => exact ⟨f.baseClauses, applySuperBase_whereClauses _ _⟩
  | some u =>
      refine ⟨f.baseClauses ++ ([or_ [fun r => decide (r.user_id = u)]] : List Clause), ?_⟩
      simp [Query.where_, applySuperBase_whereClauses]

theorem wsf_apply_whereClauses (f : WorkspaceScopedFilter)
    (q : Query) :
    ∃ rest, (f.apply_filter q).whereClauses = q.whereClauses ++ rest := by
  unfold WorkspaceScopedFilter.apply_filter
  cases f.scope_workspace with
  | none => exact ⟨f.baseClauses, applySuperBase_whereClauses _ _⟩
  | some w =>
      refine ⟨f.baseClauses ++ ([or_ [fun r => decide (r.workspace_id = some w),
        fun r => r.workspace_id.isNone]] : List Clause), ?_⟩
      simp [Query.where_, applySuperBase_whereClauses]

theorem sf_apply_whereClauses (f : ShareableFilter) (q : Query) :
    ∃ rest, (f.apply_filter q).whereClauses = q.whereClauses ++ rest := by
  unfold ShareableFilter.apply_filter
  obtain ⟨rest1, h1⟩ := wsf_apply_whereClauses f.toWorkspaceScopedFilter q
  cases f.scope_user with
  | none => exact ⟨rest1, h1⟩
  | some u =>
      refine ⟨rest1 ++ ([or_ [fun r => decide (r.user_id = u),
        fun r => r.is_shared]] : List Clause), ?_⟩
      simp [Query.where_, h1]

theorem msf_apply_whereClauses (f : ModelScopedFilter)
    (q : Query) :
    ∃ rest, (f.apply_filter q).whereClauses = q.whereClauses ++ rest := by
  unfold ModelScopedFilter.apply_filter
  obtain ⟨rest1, h1⟩ := wsf_apply_whereClauses f.toWorkspaceScopedFilter q
  cases f._model_id with
  | none => exact ⟨rest1, h1⟩
  | some m =>
      refine ⟨rest1 ++ ([fun r => decide (r.model_id = some m)] : List Clause), ?_⟩
      simp [Query.where_, h1]

theorem mvsf_apply_whereClauses_lemma
    (f : ModelVersionScopedFilter) (q : Query) :
    ∃ rest, (f.apply_filter q).whereClauses = q.whereClauses ++ rest := by
  unfold ModelVersionScopedFilter.apply_filter
  obtain ⟨rest1, h1⟩ := msf_apply_whereClauses f.toModelScopedFilter q
  refine ⟨rest1 ++ ([fun r => sqlEq r.model_version_id f._model_version_id] : List Clause), ?_⟩
  simp [Query.where_, h1]

/-- C2 counterexample: a `ModelVersionScopedFilter` with no scope constraint
set at all, applied to the empty base query, does not return the base query
unchanged — `apply_filter` unconditionally appends the
`model_version_id == None` clause, so the identity law fails for this kind. -/
theorem mvsf_apply_not_identity :
    ModelVersionScopedFilter.apply_filter ⟨[], none, none, none⟩ ⟨[]⟩
      ≠ (⟨[]⟩ : Query) := by
  intro h
  have h2 := congrArg (fun q : Query => q.whereClauses.length) h
  simp [ModelVersionScopedFilter.apply_filter,
    ModelVersionScopedFilter.toModelScopedFilter, ModelScopedFilter.apply_filter,
    ModelScopedFilter.toWorkspaceScopedFilter, WorkspaceScopedFilter.apply_filter,
    applySuperBase, Query.where_] at h2

/-- C2 (amended): with no constraints set, `apply_filter` is the identity for
`UserScopedFilter`, `WorkspaceScopedFilter`, `ShareableFilter` and
`ModelScopedFilter`; `ModelVersionScopedFilter.apply_filter` instead always
appends the `model_version_id == self._model_version_id` clause — with no
scope set it compares against `None` (IS NULL), so a row survives iff it
satisfies the base query and has a NULL `model_version_id`. -/
theorem apply_filter_no_scope_identity (q : Query) (r : Row) :
    UserScopedFilter.apply_filter ⟨[], none⟩ q = q
    ∧ WorkspaceScopedFilter.apply_filter ⟨[], none⟩ q = q
    ∧ ShareableFilter.apply_filter ⟨[], none, none⟩ q = q
    ∧ ModelScopedFilter.apply_filter ⟨[], none, none⟩ q = q
    ∧ (ModelVersionScopedFilter.apply_filter ⟨[], none, none, none⟩ q).whereClauses
        = q.whereClauses ++ ([fun row => sqlEq row.model_version_id none] : List Clause)
    ∧ (ModelVersionScopedFilter.apply_filter ⟨[], none, none, none⟩ q).eval r
        = (q.eval r && r.model_version_id.isNone) := by
  refine ⟨rfl, rfl, rfl, rfl, rfl, ?_⟩
  show (q.where_ (fun row => sqlEq row.model_version_id none)).eval r = _
  rw [Query.eval_where]
  rfl

/-- C3: with user scope `U` set, the shareable filter kind includes a row iff
it passes the base query and its `user_id` equals `U` or `is_shared` is true;
the plain user-scoped kind includes a row iff it passes the base query and its
`user_id` equals `U`, with no `is_shared` relaxation. -/
theorem user_scope_shareable_vs_plain (U : UUID) (q : Query) (r : Row) :
    ((ShareableFilter.apply_filter ⟨[], none, some U⟩ q).eval r
      = (q.eval r && (decide (r.user_id = U) || r.is_shared)))
    ∧ ((UserScopedFilter.apply_filter ⟨[], some U⟩ q).eval r
      = (q.eval r && decide (r.user_id = U))) := by
  constructor
  · show (q.where_ _).eval r = _
    rw [Query.eval_where]
    simp [or_]
  · show (q.where_ _).eval r = _
    rw [Query.eval_where]
    simp [or_]

/-- C4: with workspace scope `W` set, a row is included iff it passes the base
query and its `workspace_id` equals `W` or is NULL; in particular a row whose
`workspace_id` is a different workspace is excluded. -/
theorem workspace_scope_characterization (W : UUID) (q : Query) (r : Row) :
    ((WorkspaceScopedFilter.apply_filter ⟨[], some W⟩ q).eval r
      = (q.eval r && (decide (r.workspace_id = some W) || r.workspace_id.isNone)))
    ∧ (∀ W2, W2 ≠ W → r.workspace_id = some W2 →
        (WorkspaceScopedFilter.apply_filter ⟨[], some W⟩ q).eval r = false) := by
  constructor
  · show (q.where_ _).eval r = _
    rw [Query.eval_where]
    simp [or_]
  · intro W2 hne hws
    show (q.where_ _).eval r = false
    rw [Query.eval_where]
    simp [or_, hws, hne]

/-- Witness for the workspace-scope theorem at concrete inputs: a row in
workspace 2 is excluded under workspace scope 1. -/
theorem workspace_scope_characterization_witness :
    (WorkspaceScopedFilter.apply_filter ⟨[], some 1⟩ ⟨[]⟩).eval
      ⟨0, some 2, false, none, none⟩ = false :=
  (workspace_scope_characterization 1 ⟨[]⟩ ⟨0, some 2, false, none, none⟩).2
    2 (by decide) rfl

/-- C5: applying any scope filter never removes constraints already on the
query — a row satisfying the filtered query satisfies the base query, for all
five filter kinds and arbitrary filter states — while the scope's own
sub-conditions are OR-composed internally, as the last conjunct shows for a
shareable filter with both workspace and user scope: the result is the base
predicate AND-ed with two OR-clauses. -/
theorem apply_filter_and_composition (U W : UUID) (fu : UserScopedFilter)
    (fw : WorkspaceScopedFilter) (fs : ShareableFilter) (fm : ModelScopedFilter)
    (fv : ModelVersionScopedFilter) (q : Query) (r : Row) :
    ((fu.apply_filter q).eval r = true → q.eval r = true)
    ∧ ((fw.apply_filter q).eval r = true → q.eval r = true)
    ∧ ((fs.apply_filter q).eval r = true → q.eval r = true)
    ∧ ((fm.apply_filter q).eval r = true → q.eval r = true)
    ∧ ((fv.apply_filter q).eval r = true → q.eval r = true)
    ∧ ((ShareableFilter.apply_filter ⟨[], some W, some U⟩ q).eval r
        = (q.eval r
            && (decide (r.workspace_id = some W) || r.workspace_id.isNone)
            && (decide (r.user_id = U) || r.is_shared))) := by
  refine ⟨?_, ?_, ?_, ?_, ?_, ?_⟩
  · obtain ⟨rest, hc⟩ := usf_apply_whereClauses fu q
    exact eval_mono_of_whereClauses hc
  · obtain ⟨rest, hc⟩ := wsf_apply_whereClauses fw q
    exact eval_mono_of_whereClauses hc
  · obtain ⟨rest, hc⟩ := sf_apply_whereClauses fs q
    exact eval_mono_of_whereClauses hc
  · obtain ⟨rest, hc⟩ := msf_apply_whereClauses fm q
    exact eval_mono_of_whereClauses hc
  · obtain ⟨rest, hc⟩ := mvsf_apply_whereClauses_lemma fv q
    exact eval_mono_of_whereClauses hc
  · show ((q.where_ _).where_ _).eval r = _
    rw [Query.eval_where, Query.eval_where]
    simp [or_]

/-- Witness for the AND-composition theorem at concrete inputs: the first
conjunct applied to empty filters and the empty query. -/
theorem apply_filter_and_composition_witness :
    Query.eval ⟨[]⟩ ⟨0, none, false, none, none⟩ = true :=
  (apply_filter_and_composition 0 0 ⟨[], none⟩ ⟨[], none⟩ ⟨[], none, none⟩
    msf0 mvsf0 ⟨[]⟩ ⟨0, none, false, none, none⟩).1 rfl

/-- C8: workspace scoping never considers shared-ness — under workspace scope
`W`, a shareable row with `is_shared = true` whose workspace is set and
differs from `W` is excluded, whatever the user scope is. -/
theorem workspace_scope_ignores_shared (W W2 : UUID) (su : Option UUID)
    (q : Query) (r : Row) (hne : W2 ≠ W) (hws : r.workspace_id = some W2)
    (hsh : r.is_shared = true) :
    (ShareableFilter.apply_filter ⟨[], some W, su⟩ q).eval r = false := by
  unfold ShareableFilter.apply_filter
  cases su with
  | none =>
      show (q.where_ _).eval r = false
      rw [Query.eval_where]
      simp [or_, hws, hne]
  | some u =>
      show ((q.where_ _).where_ _).eval r = false
      rw [Query.eval_where, Query.eval_where]
      simp [or_, hws, hne]

/-- Witness for the workspace-ignores-shared theorem: a shared row of
workspace 2 is excluded under workspace scope 1 even with a matching user
scope. -/
theorem workspace_scope_ignores_shared_witness :
    (ShareableFilter.apply_filter ⟨[], some 1, some 0⟩ ⟨[]⟩).eval
      ⟨0, some 2, true, none, none⟩ = false :=
  workspace_scope_ignores_shared 1 2 (some 0) ⟨[]⟩
    ⟨0, some 2, true, none, none⟩ (by decide) rfl rfl

/-- C1 counterexample: on a fresh `ModelVersionScopedFilter` whose model scope
was never set (`_model_id = none`), `set_scope_model_version` with an
identifier reference succeeds and stores the identifier — it does not fail
with `PreconditionError` (no such check exists in the code). -/
theorem set_scope_model_version_no_precondition_check :
    mvsf0._model_id = none
    ∧ (mvsf0.set_scope_model_version dirNotFound (Ref.id 5)).result
        = Except.ok ()
    ∧ (mvsf0.set_scope_model_version dirNotFound (Ref.id 5)).state._model_version_id
        = some 5 :=
  ⟨rfl, rfl, rfl⟩

/-- C1 (amended): calling `set_scope_model_version` before any
`set_scope_model` call never fails with `PreconditionError`: with an
identifier reference it succeeds and stores the identifier without consulting
the model scope; with a name reference the unset `_model_id` is merely
forwarded to the directory lookup, whose outcome (success or lookup error)
becomes the call's outcome. -/
theorem set_scope_model_version_without_model_scope (dir : Directory)
    (f : ModelVersionScopedFilter) (h : f._model_id = none) (r : Ref) :
    (f.set_scope_model_version dir r).result
        ≠ Except.error ScopeError.PreconditionError
    ∧ (∀ u, (f.set_scope_model_version dir (Ref.id u)).result = Except.ok ()
        ∧ (f.set_scope_model_version dir (Ref.id u)).state
            = { f with _model_version_id := some u })
    ∧ (∀ s, pyUUIDOfString s = none →
        (f.set_scope_model_version dir (Ref.name s)).result
          = ((dir.get_model_version none s).map (fun _ => ())).mapError
              ScopeError.lookup) := by
  refine ⟨?_, fun u => ⟨rfl, rfl⟩, ?_⟩
  · unfold ModelVersionScopedFilter.set_scope_model_version
    cases r with
    | id u => simp
    | name s =>
        cases hp : pyUUIDOfString s with
        | some u => simp [hp]
        | none =>
            cases hd : dir.get_model_version f._model_id s with
            | ok m => simp [hp, hd]
            | error e => simp [hp, hd]
  · intro s hp
    unfold ModelVersionScopedFilter.set_scope_model_version
    rw [← h]
    cases hd : dir.get_model_version f._model_id s with
    | ok m => simp [hp, hd, Except.map, Except.mapError]
    | error e => simp [hp, hd, Except.map, Except.mapError]

/-- Witness for the amended C1 theorem: on the fresh filter, an identifier
reference succeeds with the identifier stored. -/
theorem set_scope_model_version_without_model_scope_witness :
    (mvsf0.set_scope_model_version dirNotFound (Ref.id 5)).result = Except.ok ()
    ∧ (mvsf0.set_scope_model_version dirNotFound (Ref.id 5)).state
        = { mvsf0 with _model_version_id := some 5 } :=
  (set_scope_model_version_without_model_scope dirNotFound mvsf0 rfl
    (Ref.id 5)).2.1 5

/-- C6: a reference that is a syntactically valid identifier is stored
unchanged with zero directory lookups, both for `set_scope_model` and
`set_scope_model_version` and both for `UUID` values and strings that parse
as UUIDs; a lookup happens exactly when the reference does not parse. -/
theorem scope_resolution_identifier_passthrough (dir : Directory)
    (f : ModelScopedFilter) (g : ModelVersionScopedFilter) :
    (∀ u, f.set_scope_model dir (Ref.id u)
        = ⟨{ f with _model_id := some u }, Except.ok (), 0⟩)
    ∧ (∀ s u, pyUUIDOfString s = some u →
        f.set_scope_model dir (Ref.name s)
          = ⟨{ f with _model_id := some u }, Except.ok (), 0⟩)
    ∧ (∀ s, pyUUIDOfString s = none →
        (f.set_scope_model dir (Ref.name s)).lookups = 1)
    ∧ (∀ u, g.set_scope_model_version dir (Ref.id u)
        = ⟨{ g with _model_version_id := some u }, Except.ok (), 0⟩)
    ∧ (∀ s u, pyUUIDOfString s = some u →
        g.set_scope_model_version dir (Ref.name s)
          = ⟨{ g with _model_version_id := some u }, Except.ok (), 0⟩)
    ∧ (∀ s, pyUUIDOfString s = none →
        (g.set_scope_model_version dir (Ref.name s)).lookups = 1) := by
  refine ⟨fun u => rfl, ?_, ?_, fun u => rfl, ?_, ?_⟩
  · intro s u hp
    unfold ModelScopedFilter.set_scope_model
    simp [hp]
  · intro s hp
    unfold ModelScopedFilter.set_scope_model
    cases hd : dir.get_model s with
    | ok m => simp [hp, hd]
    | error e => simp [hp, hd]
  · intro s u hp
    unfold ModelVersionScopedFilter.set_scope_model_version
    simp [hp]
  · intro s hp
    unfold ModelVersionScopedFilter.set_scope_model_version
    cases hd : dir.get_model_version g._model_id s with
    | ok m => simp [hp, hd]
    | error e => simp [hp, hd]

/-- Witness for the identifier-passthrough theorem: a concrete UUID string is
stored unchanged (its integer value is 7) with zero lookups. -/
theorem scope_resolution_identifier_passthrough_witness :
    msf0.set_scope_model dirNotFound
        (Ref.name ("00000000-0000-0000-0000-000000000007"))
      = ⟨{ msf0 with _model_id := some 7 }, Except.ok (), 0⟩ :=
  (scope_resolution_identifier_passthrough dirNotFound msf0 mvsf0).2.1
    ("00000000-0000-0000-0000-000000000007") 7 (by decide)

/-- C7: resolution failures surface synchronously from `set_scope_*` — the
error is exactly the directory lookup's error, raised at set time — and a
failed call leaves the filter state unchanged (atomic per call: the private
attribute is assigned only after resolution succeeds). `apply_filter` is a
total function of the already-resolved state, so predicate building itself
cannot fail. -/
theorem set_scope_failure_atomicity (dir : Directory) (f : ModelScopedFilter)
    (g : ModelVersionScopedFilter) (r : Ref) (e : ScopeError) :
    ((f.set_scope_model dir r).result = Except.error e →
      (f.set_scope_model dir r).state = f)
    ∧ ((g.set_scope_model_version dir r).result = Except.error e →
      (g.set_scope_model_version dir r).state = g)
    ∧ (∀ s le, pyUUIDOfString s = none → dir.get_model s = Except.error le →
        (f.set_scope_model dir (Ref.name s)).result
          = Except.error (ScopeError.lookup le))
    ∧ (∀ s le, pyUUIDOfString s = none →
        dir.get_model_version g._model_id s = Except.error le →
        (g.set_scope_model_version dir (Ref.name s)).result
          = Except.error (ScopeError.lookup le)) := by
  refine ⟨?_, ?_, ?_, ?_⟩
  · unfold ModelScopedFilter.set_scope_model
    cases r with
    | id u => simp
    | name s =>
        cases hp : pyUUIDOfString s with
        | some u => simp [hp]
        | none =>
            cases hd : dir.get_model s with
            | ok m => simp [hp, hd]
            | error e2 => simp [hp, hd]
  · unfold ModelVersionScopedFilter.set_scope_model_version
    cases r with
    | id u => simp
    | name s =>
        cases hp : pyUUIDOfString s with
        | some u => simp [hp]
        | none =>
            cases hd : dir.get_model_version g._model_id s with
            | ok m => simp [hp, hd]
            | error e2 => simp [hp, hd]
  · intro s le hp hd
    unfold ModelScopedFilter.set_scope_model
    simp [hp, hd]
  · intro s le hp hd
    unfold ModelVersionScopedFilter.set_scope_model_version
    simp [hp, hd]

/-- Witness for the atomicity theorem: a failed name resolution leaves the
fresh filter unchanged. -/
theorem set_scope_failure_atomicity_witness :
    (msf0.set_scope_model dirNotFound (Ref.name ("m"))).state = msf0 :=
  (set_scope_failure_atomicity dirNotFound msf0 mvsf0 (Ref.name ("m"))
    (ScopeError.lookup LookupError.NotFoundError)).1 rfl

/-- `UserScopedFilter.FILTER_EXCLUDE_FIELDS`: the inherited `BaseFilter` list
(whose contents live in `filter.py`, outside the excerpt, hence a parameter)
extended with `"scope_user"`. -/
def UserScopedFilter.FILTER_EXCLUDE_FIELDS (base : List String) : List String :=
  base ++ ["scope_user"]

/-- `UserScopedFilter.CLI_EXCLUDE_FIELDS`: the `BaseFilter` list extended with
`"scope_user"`. -/
def UserScopedFilter.CLI_EXCLUDE_FIELDS (base : List String) : List String :=
  base ++ ["scope_user"]

/-- `WorkspaceScopedFilter.FILTER_EXCLUDE_FIELDS`: the `BaseFilter` list
extended with `"scope_workspace"`. -/
def WorkspaceScopedFilter.FILTER_EXCLUDE_FIELDS (base : List String) :
    List String :=
  base ++ ["scope_workspace"]

/-- `WorkspaceScopedFilter.CLI_EXCLUDE_FIELDS`: the `BaseFilter` list extended
with `"scope_workspace"`. -/
def WorkspaceScopedFilter.CLI_EXCLUDE_FIELDS (base : List String) :
    List String :=
  base ++ ["scope_workspace"]

/-- `ShareableFilter.FILTER_EXCLUDE_FIELDS`: the `WorkspaceScopedFilter` list
extended with `"scope_user"`. -/
def ShareableFilter.FILTER_EXCLUDE_FIELDS (base : List String) : List String :=
  WorkspaceScopedFilter.FILTER_EXCLUDE_FIELDS base ++ ["scope_user"]

/-- `ShareableFilter.CLI_EXCLUDE_FIELDS`: the `WorkspaceScopedFilter` list
extended with `"scope_user"`. -/
def ShareableFilter.CLI_EXCLUDE_FIELDS (base : List String) : List String :=
  WorkspaceScopedFilter.CLI_EXCLUDE_FIELDS base ++ ["scope_user"]

/-- Modelled from the spec: the generic field processing of
`BaseFilter.apply_filter` (`filter.py`, outside the excerpt) turns each set
model field into an ordinary column-filter clause ANDed onto the query,
except that fields named in `FILTER_EXCLUDE_FIELDS` are skipped. -/
def baseProcessFields (excl : List String) (fields : List (String × Clause))
    (q : Query) : Query :=
  fields.foldl (fun acc p => if p.1 ∈ excl then acc else acc.where_ p.2) q

/-- C9: `scope_user` and `scope_workspace` are members of the
`FILTER_EXCLUDE_FIELDS` and `CLI_EXCLUDE_FIELDS` of every filter class
declaring them (whatever the inherited `BaseFilter` lists contain), so the
generic field processing skips them — a field named `scope_user` or
`scope_workspace` contributes no column clause, and the scopes act on the
query only through the dedicated clause of `apply_filter`. -/
theorem scope_fields_excluded_from_generic_processing (base : List String)
    (fields : List (String × Clause)) (q : Query) (c c2 : Clause) :
    ("scope_user") ∈ UserScopedFilter.FILTER_EXCLUDE_FIELDS base
    ∧ ("scope_user") ∈ UserScopedFilter.CLI_EXCLUDE_FIELDS base
    ∧ ("scope_workspace") ∈ WorkspaceScopedFilter.FILTER_EXCLUDE_FIELDS base
    ∧ ("scope_workspace") ∈ WorkspaceScopedFilter.CLI_EXCLUDE_FIELDS base
    ∧ ("scope_user") ∈ ShareableFilter.FILTER_EXCLUDE_FIELDS base
    ∧ ("scope_workspace") ∈ ShareableFilter.FILTER_EXCLUDE_FIELDS base
    ∧ ("scope_user") ∈ ShareableFilter.CLI_EXCLUDE_FIELDS base
    ∧ ("scope_workspace") ∈ ShareableFilter.CLI_EXCLUDE_FIELDS base
    ∧ baseProcessFields (UserScopedFilter.FILTER_EXCLUDE_FIELDS base)
        ((("scope_user"), c) :: fields) q
      = baseProcessFields (UserScopedFilter.FILTER_EXCLUDE_FIELDS base) fields q
    ∧ baseProcessFields (WorkspaceScopedFilter.FILTER_EXCLUDE_FIELDS base)
        ((("scope_workspace"), c) :: fields) q
      = baseProcessFields (WorkspaceScopedFilter.FILTER_EXCLUDE_FIELDS base)
          fields q
    ∧ baseProcessFields (ShareableFilter.FILTER_EXCLUDE_FIELDS base)
        ((("scope_user"), c) :: (("scope_workspace"), c2) :: fields) q
      = baseProcessFields (ShareableFilter.FILTER_EXCLUDE_FIELDS base)
          fields q := by
  refine ⟨?_, ?_, ?_, ?_, ?_, ?_, ?_, ?_, ?_, ?_, ?_⟩ <;>
    simp [UserScopedFilter.FILTER_EXCLUDE_FIELDS,
      UserScopedFilter.CLI_EXCLUDE_FIELDS,
      WorkspaceScopedFilter.FILTER_EXCLUDE_FIELDS,
      WorkspaceScopedFilter.CLI_EXCLUDE_FIELDS,
      ShareableFilter.FILTER_EXCLUDE_FIELDS,
      ShareableFilter.CLI_EXCLUDE_FIELDS,
      baseProcessFields]

/-- State-passing form of `ShareableFilter.apply_filter`, returning the
method's result together with the final value of `self`: the body reads
`self.scope_user` but contains no assignment to `self`, so `self` is returned
as received. -/
def ShareableFilter.apply_filterS (self : ShareableFilter) (query : Query) :
    Query × ShareableFilter :=
  let query := self.toWorkspaceScopedFilter.apply_filter query
  match self.scope_user with
  | some u =>
      (query.where_ (or_ [fun r => decide (r.user_id = u),
                          fun r => r.is_shared]), self)
  | none => (query, self)

/-- State-passing form of `ModelScopedFilter.apply_filter`: no assignment to
`self` occurs in the body. -/
def ModelScopedFilter.apply_filterS (self : ModelScopedFilter) (query : Query) :
    Query × ModelScopedFilter :=
  let query := self.toWorkspaceScopedFilter.apply_filter query
  match self._model_id with
  | some m => (query.where_ (fun r => decide (r.model_id = some m)), self)
  | none => (query, self)

/-- State-passing form of `ModelVersionScopedFilter.apply_filter`: no
assignment to `self` occurs in the body. -/
def ModelVersionScopedFilter.apply_filterS (self : ModelVersionScopedFilter)
    (query : Query) : Query × ModelVersionScopedFilter :=
  let query := self.toModelScopedFilter.apply_filter query
  (query.where_ (fun r => sqlEq r.model_version_id self._model_version_id),
    self)

/-- C10: `apply_filter` is read-only on the filter object — in state-passing
form the filter comes back unchanged and the query result agrees with the
pure `apply_filter` — so applying the same filter twice to the same base
query yields the same result. -/
theorem apply_filter_readonly_deterministic (fs : ShareableFilter)
    (fm : ModelScopedFilter) (fv : ModelVersionScopedFilter) (q : Query) :
    ((fs.apply_filterS q).2 = fs
      ∧ (fs.apply_filterS q).1 = fs.apply_filter q
      ∧ ShareableFilter.apply_filterS (fs.apply_filterS q).2 q
          = fs.apply_filterS q)
    ∧ ((fm.apply_filterS q).2 = fm
      ∧ (fm.apply_filterS q).1 = fm.apply_filter q
      ∧ ModelScopedFilter.apply_filterS (fm.apply_filterS q).2 q
          = fm.apply_filterS q)
    ∧ ((fv.apply_filterS q).2 = fv
      ∧ (fv.apply_filterS q).1 = fv.apply_filter q
      ∧ ModelVersionScopedFilter.apply_filterS (fv.apply_filterS q).2 q
          = fv.apply_filterS q) := by
  refine ⟨⟨?_, ?_, ?_⟩, ⟨?_, ?_, ?_⟩, ⟨?_, ?_, ?_⟩⟩ <;>
    first
      | (cases h : fs.scope_user <;>
          simp [ShareableFilter.apply_filterS, ShareableFilter.apply_filter, h])
      | (cases h : fm._model_id <;>
          simp [ModelScopedFilter.apply_filterS, ModelScopedFilter.apply_filter,
            h])
      | simp [ModelVersionScopedFilter.apply_filterS,
          ModelVersionScopedFilter.apply_filter]
